/-
Verification of the BPet BOP digital-twin models and acceptance criteria.

Shallow embedding of:
  * `bop_twin/components/valve.py`           (`OrificeValve`)
  * `bop_twin/components/accumulator.py`     (`Accumulator`)
  * `bop_twin/systems/bop_hydraulic.py`      (`BOPHydraulicMVP`)
  * `bop_twin/criteria/pressure_acceptance_v2.py`
  * `bop_twin/criteria/soak_test_acceptance.py`
  * `bop_twin/criteria/pe_acceptance.py`
  * `bop_twin/criteria/function_test_acceptance.py`
  * `bop_twin/faults/*.py`

Floating-point quantities of the physical models are embedded as real
numbers (the models use `sqrt`, `exp` and real powers); the acceptance
criteria and the fault configuration transforms are embedded over `ℚ`
and lists so that they are executable and decidable on concrete data.
-/
import Mathlib

namespace BPet

/-! ### Valve model (`bop_twin/components/valve.py`) -/

/-- Parameters of `OrificeValveParams` (the `name` field is irrelevant
to the dynamics and omitted). Defaults as in the Python dataclass. -/
structure OrificeValveParams where
  cd : ℝ := 0.62
  area_m2 : ℝ := 1e-4
  min_opening : ℝ := 0
  max_opening : ℝ := 1
  min_delta_p_pa : ℝ := 0
  yield_stress_pa : ℝ := 0
  hydraulic_diameter_m : ℝ := 0.01
  equivalent_length_m : ℝ := 1
  transmission_gain : ℝ := 1
  inertia_dissipation_ratio : ℝ := 1
  attenuation_alpha : ℝ := 0
  allow_reverse_flow : Bool := false
  reverse_flow_gain : ℝ := 1

/-- `np.clip(x, lo, hi)` = `min (max x lo) hi`. -/
noncomputable def npClip (x lo hi : ℝ) : ℝ := min (max x lo) hi

/-- `np.sign` on reals. -/
noncomputable def npSign (x : ℝ) : ℝ := if 0 < x then 1 else if x < 0 then -1 else 0

/-- `OrificeValve._yield_delta_p_threshold_pa`: zero when the yield stress
is non-positive, else `4*L*tau0/D` with `D` and `L` floored at `1e-9`. -/
noncomputable def yieldDeltaPThresholdPa (P : OrificeValveParams) : ℝ :=
  if P.yield_stress_pa ≤ 0 then 0
  else (4 * max P.equivalent_length_m 1e-9 * P.yield_stress_pa) / max P.hydraulic_diameter_m 1e-9

/-- `OrificeValve.flow_m3s`, translated clause by clause from the source:
clamp the opening, clamp the raw differential at zero unless reverse flow
is allowed, early-out on zero differential / area / direction, subtract the
yield-or-minimum threshold (floored at zero), apply the orifice equation,
then the transmission gain, the reverse gain and the Bingham-like
exponential attenuation, and restore the sign. -/
noncomputable def flow_m3s (P : OrificeValveParams) (p_up_pa p_dn_pa rho opening : ℝ) : ℝ :=
  let op := npClip opening P.min_opening P.max_opening
  let raw_dP := if P.allow_reverse_flow then p_up_pa - p_dn_pa else max (p_up_pa - p_dn_pa) 0
  let direction := npSign raw_dP
  let dP := |raw_dP|
  let A := P.area_m2 * op
  if dP ≤ 0 ∨ A ≤ 0 ∨ direction = 0 then 0
  else
    let dP_threshold := max P.min_delta_p_pa (yieldDeltaPThresholdPa P)
    let dP_effective := max (dP - dP_threshold) 0
    if dP_effective ≤ 0 then 0
    else
      let q := P.cd * A * Real.sqrt (2 * dP_effective / rho)
      let gain0 := npClip P.transmission_gain 0 1
      let gain1 := if direction < 0 then gain0 * max P.reverse_flow_gain 0 else gain0
      let gain2 :=
        if 0 < P.attenuation_alpha ∧ 0 < P.yield_stress_pa then
          let d := max P.hydraulic_diameter_m 1e-9
          let l := max P.equivalent_length_m 1e-9
          let tau_w := dP * d / (4 * l)
          let bingham_like := P.yield_stress_pa / max tau_w 1e-9
          let lambda_r := max P.inertia_dissipation_ratio 1e-9
          gain1 * Real.exp (-(P.attenuation_alpha * bingham_like) / lambda_r)
        else gain1
      direction * gain2 * q

/-! ### Lumped hydraulic network (`bop_twin/systems/bop_hydraulic.py`) -/

/-- `LumpedHydraulicParams` with the dataclass defaults. -/
structure LumpedHydraulicParams where
  rho : ℝ
  bulk_modulus : ℝ
  V_acc_eff_m3 : ℝ
  V_act_m3 : ℝ
  p_atm_pa : ℝ := 1e5
  CdA_leak_m2 : ℝ := 0
  gas_volume_fraction : ℝ := 0
  V_acc_line_m3 : ℝ := 0
  V_act_line_m3 : ℝ := 0
  acc_structure_compliance_m3_per_pa : ℝ := 0
  act_structure_compliance_m3_per_pa : ℝ := 0
  line_resistance_pa_s_per_m3 : ℝ := 0

/-- `BOPHydraulicMVP.effective_bulk_modulus_pa`: liquid bulk modulus
floored at `1e3`, mixed with a clipped free-gas fraction via Wood's
equation, with the node pressure floored at `1e4`. -/
noncomputable def effective_bulk_modulus_pa (hp : LumpedHydraulicParams) (p_node_pa : ℝ) : ℝ :=
  let beta_liq := max hp.bulk_modulus 1e3
  let phi := npClip hp.gas_volume_fraction 0 0.95
  if phi ≤ 0 then beta_liq
  else
    let p_abs := max p_node_pa 1e4
    let inv_beta_eff := (1 - phi) / beta_liq + phi / p_abs
    1 / max inv_beta_eff 1e-18

/-- `BOPHydraulicMVP.node_capacitance_m3_per_pa`: fluid capacitance
(node volume floored at `1e-9` over effective bulk modulus floored at
`1e3`) plus non-negative structural compliance, floored at `1e-15`. -/
noncomputable def node_capacitance_m3_per_pa (hp : LumpedHydraulicParams)
    (node_volume_m3 p_node_pa structural_compliance_m3_per_pa : ℝ) : ℝ :=
  let beta_eff := effective_bulk_modulus_pa hp p_node_pa
  let fluid_cap := max node_volume_m3 1e-9 / max beta_eff 1e3
  let struct_cap := max structural_compliance_m3_per_pa 0
  max (fluid_cap + struct_cap) 1e-15

/-- `BOPHydraulicMVP.leak_flow_m3s`. -/
noncomputable def leak_flow_m3s (hp : LumpedHydraulicParams) (p_act_pa : ℝ) : ℝ :=
  if hp.CdA_leak_m2 ≤ 0 then 0
  else
    let dP := max (p_act_pa - hp.p_atm_pa) 0
    if dP ≤ 0 then 0
    else hp.CdA_leak_m2 * Real.sqrt (2 * dP / hp.rho)

/-- `BOPHydraulicMVP.apply_line_resistance_limit`. -/
noncomputable def apply_line_resistance_limit (hp : LumpedHydraulicParams) (q_m3s dP_pa : ℝ) : ℝ :=
  if hp.line_resistance_pa_s_per_m3 ≤ 0 then q_m3s
  else
    let q_limit := |dP_pa| / hp.line_resistance_pa_s_per_m3
    npSign q_m3s * min |q_m3s| q_limit

/-- `BOPHydraulicMVP.rhs`: state derivatives `[dP_acc/dt, dP_act/dt]`
for the two-node network, with `opening` the value of the opening
function at `t`. -/
noncomputable def bop_rhs (hp : LumpedHydraulicParams) (valve : OrificeValveParams)
    (opening P_acc P_act : ℝ) : ℝ × ℝ :=
  let Q0 := flow_m3s valve P_acc P_act hp.rho opening
  let Q := apply_line_resistance_limit hp Q0 (P_acc - P_act)
  let Q_leak := leak_flow_m3s hp P_act
  let V_acc_total := hp.V_acc_eff_m3 + hp.V_acc_line_m3
  let V_act_total := hp.V_act_m3 + hp.V_act_line_m3
  let C_acc := node_capacitance_m3_per_pa hp V_acc_total P_acc hp.acc_structure_compliance_m3_per_pa
  let C_act := node_capacitance_m3_per_pa hp V_act_total P_act hp.act_structure_compliance_m3_per_pa
  ((-Q) / C_acc, (Q - Q_leak) / C_act)

/-! ### Accumulator (`bop_twin/components/accumulator.py`) -/

/-- `AccumulatorParams` (the `name` field omitted), defaults as in the
dataclass. `__post_init__` demands `precharge_pa > 0`, `gas_volume_m3 > 0`,
`polytropic_n > 0` and `fluid_volume_m3 ≥ 0`; theorems carry these as
hypotheses. -/
structure AccumulatorParams where
  precharge_pa : ℝ
  gas_volume_m3 : ℝ
  polytropic_n : ℝ := 1.2
  fluid_volume_m3 : ℝ := 0
  min_pressure_pa : ℝ := 1e5
  max_pressure_pa : ℝ := 1e9

/-- `Accumulator.gas_pressure_from_Vg`: `P0 * (Vg0 / Vg) ** n`
(a real power, as in Python). -/
noncomputable def gas_pressure_from_Vg (P : AccumulatorParams) (Vg : ℝ) : ℝ :=
  P.precharge_pa * (P.gas_volume_m3 / Vg) ^ P.polytropic_n

/-- The pressure computed by `Accumulator.rhs` from the current fluid
volume `Vf`: gas volume `Vg = Vg0 + (Vf0 - Vf)` floored at `1e-12`,
polytropic pressure, then the sequential clamps to
`[min_pressure_pa, max_pressure_pa]`. -/
noncomputable def accumulator_pressure (P : AccumulatorParams) (Vf : ℝ) : ℝ :=
  let Vg0 := P.gas_volume_m3 + (P.fluid_volume_m3 - Vf)
  let Vg := if Vg0 ≤ 1e-12 then 1e-12 else Vg0
  let p := gas_pressure_from_Vg P Vg
  let p1 := if p < P.min_pressure_pa then P.min_pressure_pa else p
  if P.max_pressure_pa < p1 then P.max_pressure_pa else p1

/-! ### Pressure-test acceptance (`bop_twin/criteria/pressure_acceptance_v2.py`)

The criteria operate on 1-D float series; they are embedded over `ℚ`
lists. The source raises `ValueError` when the two series differ in
length (or are not 1-D); the embedding is stated for equal-length
inputs, which every theorem assumes. -/

/-- `PressureTestSpec` with the dataclass defaults. `mode` is the
literal string `"low"` or `"high"`. -/
structure PressureTestSpec where
  mode : String
  observation_min : ℚ := 5
  low_min_psi : ℚ := 250
  low_max_psi : ℚ := 350
  low_drain_upper_psi : ℚ := 500
  low_max_rise_psi : ℚ := 10
  max_drop_low_psi : ℚ := 10
  max_drop_high_psi : ℚ := 40
  min_high_test_psi : ℚ := 2000
  enforce_min_high_test : Bool := true
  require_rwp_stabilization_rule : Bool := false
  min_rwp_fraction : ℚ := 97 / 100
  check_measured_bop_pressure : Bool := false
  measured_bop_constant_psi_per_m_sg : ℚ := 1704 / 10000
deriving Repr, DecidableEq

/-- Result of a pressure-test evaluation: the `ok` flag and the
`reason` string (the heterogeneous `details` dict is not modelled;
no claim depends on it). -/
structure PressureTestResult where
  ok : Bool
  reason : String
deriving Repr, DecidableEq

/-- The supported pressure units (`_to_psi` raises on any other
string, so only these three occur). -/
inductive PressureUnitKind where
  | psi
  | pa
  | bar
deriving Repr, DecidableEq

/-- `_to_psi`: psi passes through, Pa divides by `6894.75729`,
bar multiplies by `14.5037738`. -/
def toPsi (pressure : List ℚ) (unit : PressureUnitKind) : List ℚ :=
  match unit with
  | .psi => pressure
  | .pa => pressure.map (· / (689475729 / 100000))
  | .bar => pressure.map (· * (145037738 / 10000000))

/-- `np.median` of a 1-D array: middle element of the sorted data for
odd length, mean of the two middle elements for even length (the
rolling-median caller only ever uses odd windows). -/
def npMedian (l : List ℚ) : ℚ :=
  let s := l.mergeSort (fun a b => decide (a ≤ b))
  if l.length % 2 = 1 then s.getD (l.length / 2) 0
  else (s.getD (l.length / 2 - 1) 0 + s.getD (l.length / 2) 0) / 2

/-- `np.max` (0 on the empty list, which the source never hits). -/
def npMax : List ℚ → ℚ
  | [] => 0
  | a :: r => r.foldl max a

/-- `np.min` (0 on the empty list, which the source never hits). -/
def npMin : List ℚ → ℚ
  | [] => 0
  | a :: r => r.foldl min a

/-- `np.any(np.diff(t) < 0)`: some adjacent pair decreases. -/
def hasDecrease : List ℚ → Bool
  | a :: b :: rest => decide (b < a) || hasDecrease (b :: rest)
  | _ => false

/-- `_rolling_median`: identity for `window ≤ 1`; otherwise force the
window odd, edge-pad by half the window, and take the median of each
centred slice. -/
def rollingMedian (x : List ℚ) (window : ℤ) : List ℚ :=
  if window ≤ 1 then x
  else
    let w := (if window % 2 = 0 then window + 1 else window).toNat
    let pad := w / 2
    let xp := List.replicate pad (x.headD 0) ++ x ++ List.replicate pad (x.getLastD 0)
    (List.range x.length).map (fun i => npMedian ((xp.drop i).take w))

/-- `_window_indices`: indices `i` with `t_end - duration ≤ t[i] ≤ t_end`. -/
def windowIndices (t : List ℚ) (t_end duration_s : ℚ) : List ℕ :=
  (List.range t.length).filter
    (fun i => decide (t_end - duration_s ≤ t.getD i 0) && decide (t.getD i 0 ≤ t_end))

/-- `np.mean` of a list: sum over length (`ℚ` division by zero gives 0;
the source never averages an empty selection on the paths modelled). -/
def npMean (l : List ℚ) : ℚ := l.sum / l.length

/-- `_robust_start_end_mean`: mean of the pressures at the first and at
the last `max 3 ⌊n/5⌋` window indices. (The first argument `t` is unused
in the source body as well; the `n < 10` `ValueError` is unreachable from
`evaluate_pressure_test`, which guards `len(idx) < 10` beforehand.) -/
def robustStartEndMean (_t p : List ℚ) (idx : List ℕ) : ℚ × ℚ :=
  let n := idx.length
  let k := max 3 (n / 5)
  let i0 := idx.take k
  let i1 := idx.drop (n - k)
  (npMean (i0.map (fun i => p.getD i 0)), npMean (i1.map (fun i => p.getD i 0)))

/-- `_max_overpressure_allowed`: `min(5% of RWP, 500 psi)`. -/
def maxOverpressureAllowed (rwp_psi : ℚ) : ℚ := min (5 / 100 * rwp_psi) 500

/-- `_bop_measured_pressure_psi`: surface test pressure plus the
hydrostatic component `const * (rho/1000) * LDA`. -/
def bopMeasuredPressurePsi (ptest_psi fluid_density_kg_m3 lda_m constant_psi_per_m_sg : ℚ) : ℚ :=
  ptest_psi + constant_psi_per_m_sg * (fluid_density_kg_m3 / 1000) * lda_m

/-- `evaluate_pressure_test`, translated check by check from the source:
length guard, stable sort by time when needed, unit conversion, rolling
median, observation window, robust start/end means, then the optional
depth-corrected and RWP overpressure checks, then the mode-specific
low/high dispatch. -/
def evaluatePressureTest (time_s pressure_psi : List ℚ) (spec : PressureTestSpec)
    (designated_pressure_psi rwp_psi : Option ℚ) (pressure_unit : PressureUnitKind)
    (smooth_window : ℤ) (high_test_justified_below_min : Bool)
    (bop_nominal_pressure_psi fluid_density_kg_m3 lda_m : Option ℚ) : PressureTestResult :=
  if time_s.length < 20 then ⟨false, "series_too_short"⟩
  else
    let pairs := time_s.zip pressure_psi
    let pairs := if hasDecrease time_s then pairs.mergeSort (fun a b => decide (a.1 ≤ b.1))
      else pairs
    let t := pairs.map Prod.fst
    let p_raw := toPsi (pairs.map Prod.snd) pressure_unit
    let p := rollingMedian p_raw smooth_window
    let obs_s := spec.observation_min * 60
    let t_end := t.getLastD 0
    let idx := windowIndices t t_end obs_s
    if idx.length < 10 then ⟨false, "insufficient_samples_in_observation_window"⟩
    else
      let se := robustStartEndMean t p idx
      let p_start := se.1
      let p_end := se.2
      let drop := p_start - p_end
      let rise := p_end - p_start
      let measuredFail :=
        match bop_nominal_pressure_psi, fluid_density_kg_m3, lda_m with
        | some nominal, some rho, some lda =>
          spec.check_measured_bop_pressure &&
            decide (nominal <
              bopMeasuredPressurePsi (npMax p) rho lda spec.measured_bop_constant_psi_per_m_sg)
        | _, _, _ => false
      if measuredFail then ⟨false, "bop_measured_pressure_above_nominal_limit"⟩
      else
        let rwpFail :=
          match rwp_psi with
          | some rwp => decide (rwp + maxOverpressureAllowed rwp < npMax p)
          | none => false
        if rwpFail then ⟨false, "overpressure_above_rwp_limit"⟩
        else if spec.mode = "low" then
          let p_obs := idx.map (fun i => p.getD i 0)
          let pmin_obs := npMin p_obs
          let pmax_obs := npMax p_obs
          if pmin_obs < spec.low_min_psi ∨ spec.low_max_psi < pmax_obs then
            if p.any (fun v => decide (spec.low_drain_upper_psi < v)) then
              ⟨false, "low_test_exceeded_500psi_requires_redo"⟩
            else ⟨false, "low_test_outside_250_350_during_observation"⟩
          else if spec.max_drop_low_psi < drop then ⟨false, "low_test_drop_exceeds_limit"⟩
          else if spec.low_max_rise_psi < rise then ⟨false, "low_test_rise_exceeds_limit"⟩
          else ⟨true, "ok"⟩
        else if spec.mode = "high" then
          match designated_pressure_psi with
          | none => ⟨false, "missing_designated_pressure_for_high_test"⟩
          | some designated =>
            if spec.enforce_min_high_test ∧ designated < spec.min_high_test_psi ∧
                high_test_justified_below_min = false then
              ⟨false, "high_test_designated_pressure_below_minimum_2000psi"⟩
            else
              let p_obs := idx.map (fun i => p.getD i 0)
              let pmin_obs := npMin p_obs
              if pmin_obs < designated then
                ⟨false, "high_test_below_designated_requires_repressurize_restart_window"⟩
              else if spec.max_drop_high_psi < drop then ⟨false, "high_test_drop_exceeds_limit"⟩
              else
                let stabFail :=
                  match rwp_psi with
                  | some rwp => spec.require_rwp_stabilization_rule &&
                      decide (p_end < max designated (spec.min_rwp_fraction * rwp))
                  | none => false
                if stabFail then ⟨false, "high_test_stabilization_below_required_limit"⟩
                else ⟨true, "ok"⟩
        else ⟨false, "unknown_mode"⟩

/-! ### Soak test acceptance (`bop_twin/criteria/soak_test_acceptance.py`) -/

/-- A generic ok/reason verdict (the source returns dicts whose
`details` entries no claim depends on). -/
structure Verdict where
  ok : Bool
  reason : String
deriving Repr, DecidableEq

/-- `SoakTestSpec` with the dataclass defaults. -/
structure SoakTestSpec where
  duration_min : ℚ := 15
  step_min : ℚ := 5
  extend_if_dubious : Bool := true
  dubious_fraction_of_limit : ℚ := 9 / 10
  min_required_pump_interval_h : ℚ := 4
  min_operation_interval_min : ℚ := 30
deriving Repr, DecidableEq

/-- Python's built-in `round` (banker's rounding, half to even). -/
def pythonRound (x : ℚ) : ℤ :=
  let f := ⌊x⌋
  let r := x - f
  if r < 1 / 2 then f
  else if 1 / 2 < r then f + 1
  else if f % 2 = 0 then f else f + 1

/-- `allowed_drop_per_step` (PE-1PBR-00051 item 3.1.6), with the
conservative fallback of 6 psi per 5 min. -/
def allowed_drop_per_step (pump_start_psi : ℚ) : ℚ :=
  let ps := pythonRound pump_start_psi
  if ps = 2700 ∨ ps = 4700 then 6
  else if ps = 4600 then 8
  else if ps = 4500 then 10
  else 6

/-- One 5-minute block of `evaluate_soak_test`: the robust start/end
means over the samples of `[a, b]`, `none` when the block has fewer
than 5 samples (the source then fails with
`insufficient_samples_in_block`). -/
def soakBlockDrop (t15 p15 : List ℚ) (a b : ℚ) : Option ℚ :=
  let idx := (List.range t15.length).filter
    (fun i => decide (a ≤ t15.getD i 0) && decide (t15.getD i 0 ≤ b))
  if idx.length < 5 then none
  else
    let k := max 3 (idx.length / 5)
    let p0 := npMean ((idx.take k).map (fun i => p15.getD i 0))
    let p1 := npMean ((idx.drop (idx.length - k)).map (fun i => p15.getD i 0))
    some (p0 - p1)

/-- `evaluate_soak_test`: keep the last `duration_min` minutes, check the
per-5-min drops against `allowed_drop_per_step`, and apply the
dubious-drop / estimated-pump-interval extension rule before the final
per-block verdict. -/
def evaluateSoakTest (time_s acc_pressure_psi : List ℚ) (pump_start_psi : ℚ)
    (spec : SoakTestSpec) (pump_stop_psi : Option ℚ) : Verdict :=
  let pairs := time_s.zip acc_pressure_psi
  let pairs := if hasDecrease time_s then pairs.mergeSort (fun a b => decide (a.1 ≤ b.1))
    else pairs
  let t := pairs.map Prod.fst
  let p := pairs.map Prod.snd
  let dur_s := spec.duration_min * 60
  let step_s := spec.step_min * 60
  let t_end := t.getLastD 0
  let t_start := t_end - dur_s
  if t_start < t.headD 0 then ⟨false, "insufficient_duration"⟩
  else
    let keep := (List.range t.length).filter
      (fun i => decide (t_start ≤ t.getD i 0) && decide (t.getD i 0 ≤ t_end))
    let t15 := keep.map (fun i => t.getD i 0)
    let p15 := keep.map (fun i => p.getD i 0)
    let allow := allowed_drop_per_step pump_start_psi
    let nblocks := (⌊spec.duration_min / spec.step_min⌋).toNat
    match (List.range nblocks).mapM
        (fun k => soakBlockDrop t15 p15 (t_start + k * step_s) (t_start + k * step_s + step_s)) with
    | none => ⟨false, "insufficient_samples_in_block"⟩
    | some drops =>
      let ok_by_block := drops.all (fun d => decide (d ≤ allow))
      let total_drop := npMax p15 - npMin p15
      let mean_drop_rate := if 0 < spec.duration_min then total_drop / spec.duration_min else 0
      let estimated_interval_min : Option ℚ :=
        match pump_stop_psi with
        | some stop =>
          if 1 / 1000000000000 < mean_drop_rate then
            some (max (stop - pump_start_psi) 0 / mean_drop_rate)
          else none
        | none => none
      let dubious := drops.any (fun d => decide (spec.dubious_fraction_of_limit * allow < d))
      let extendFail :=
        ok_by_block && spec.extend_if_dubious && dubious &&
          match estimated_interval_min with
          | some m => decide (m < spec.min_required_pump_interval_h * 60)
          | none => false
      if extendFail then ⟨false, "requires_extended_observation_until_pump_interval_above_4h"⟩
      else if ok_by_block then ⟨true, "ok"⟩
      else ⟨false, "drop_exceeds_limit"⟩

/-! ### Legacy percentage hold-drop (`bop_twin/criteria/pe_acceptance.py`) -/

/-- Result of `acceptance_hold_drop`: the windowed percentage drop and
the pass flag (the optional nested Petrobras result only feeds the
final flag). -/
structure HoldDropResult where
  delta_p_percent : ℚ
  pass : Bool
deriving Repr, DecidableEq

/-- `acceptance_hold_drop`: the legacy percentage method — first and
last sample of the trailing `window_s` window (all samples when the
window mask is empty), percentage drop relative to the window start,
pass iff `delta_p_percent ≤ max_drop_percent`; when
`use_petrobras_logic` is set, the new engine's `ok` is and-ed in. -/
def acceptanceHoldDrop (t p : List ℚ) (window_s max_drop_percent : ℚ)
    (use_petrobras_logic : Bool) (pressure_unit : PressureUnitKind) (mode : String)
    (designated_pressure_psi rwp_psi : Option ℚ) : HoldDropResult :=
  let t_end := t.getLastD 0
  let keepIdx := (List.range t.length).filter (fun i => decide (t_end - window_s ≤ t.getD i 0))
  let keepIdx := if keepIdx.isEmpty then List.range t.length else keepIdx
  let p0 := p.getD (keepIdx.headD 0) 0
  let pend := p.getD (keepIdx.getLastD 0) 0
  let dp := (p0 - pend) / p0 * 100
  let basePass := decide (dp ≤ max_drop_percent)
  if use_petrobras_logic then
    let spec : PressureTestSpec := { mode := if mode.toLower = "high" then "high" else "low" }
    let result := evaluatePressureTest t p spec designated_pressure_psi rwp_psi pressure_unit
      11 false none none none
    ⟨dp, basePass && result.ok⟩
  else ⟨dp, basePass⟩

/-! ### Function-test acceptance (`bop_twin/criteria/function_test_acceptance.py`) -/

/-- `FunctionTestSpec` with the dataclass defaults. -/
structure FunctionTestSpec where
  max_close_annular_s : ℚ := 60
  max_close_ram_s : ℚ := 45
  max_close_annular_surface_small_s : ℚ := 30
  max_close_annular_surface_large_s : ℚ := 45
  max_close_ram_surface_s : ℚ := 30
  max_subsea_kill_choke_valve_time_s : ℚ := 45
  validate_regulators : Bool := false
  regulator_setpoints_psi : List ℚ := [500, 1000, 1500, 3000]
  regulator_min_allowed_psi : ℚ := 700
  regulator_max_allowed_psi : ℚ := 2800
deriving Repr, DecidableEq

/-- A closing-time record dict: the keys `evaluate_closing_times`
reads, each optional (`.get` returns `None` for a missing key). -/
structure FunctionRecord where
  name : Option String := none
  type : Option String := none
  environment : Option String := none
  service : Option String := none
  bore_in : Option ℚ := none
  close_time_s : Option ℚ := none
  open_time_s : Option ℚ := none
deriving Repr, DecidableEq

/-- A regulator record dict with the keys `_evaluate_regulators`
reads. (The source calls `float(r.get("measured_psi"))`, which raises
when the key is missing; the embedding uses a default of 0 — no claim
exercises that path.) -/
structure RegulatorRecord where
  setpoint_psi : Option ℚ := none
  measured_psi : Option ℚ := none
deriving Repr, DecidableEq

/-- `_annular_limit`. -/
def annularLimit (r : FunctionRecord) (spec : FunctionTestSpec) : ℚ :=
  let env := (r.environment.getD "subsea").toLower
  if env = "surface" then
    let bore_in := r.bore_in.getD (75 / 4)
    if 75 / 4 ≤ bore_in then spec.max_close_annular_surface_large_s
    else spec.max_close_annular_surface_small_s
  else spec.max_close_annular_s

/-- `_ram_limit`. -/
def ramLimit (r : FunctionRecord) (spec : FunctionTestSpec) : ℚ :=
  let env := (r.environment.getD "subsea").toLower
  if env = "surface" then spec.max_close_ram_surface_s else spec.max_close_ram_s

/-- The shapes of the failure dicts `evaluate_closing_times` and
`_evaluate_regulators` append to their `fails` lists. -/
inductive FunctionFail where
  | missing_close_time (name : Option String) (typ : String)
  | close_time_exceeded (name : Option String) (typ : String) (t limit : ℚ)
  | valve_time_exceeded (name : Option String) (service metric : String) (t limit : ℚ)
  | missing_regulator_setpoint (setpoint_psi tolerance_psi : ℚ)
  | regulator_min_pressure_too_high (measured_psi limit_psi : ℚ)
  | regulator_max_pressure_too_low (measured_psi limit_psi : ℚ)
deriving Repr, DecidableEq

/-- The failure entries one record contributes in the main loop of
`evaluate_closing_times`: annular/ram close-time checks, then the
N-2753 subsea kill/choke valve open/close checks; every other record
type contributes nothing. -/
def recordFails (r : FunctionRecord) (spec : FunctionTestSpec) : List FunctionFail :=
  let typ := (r.type.getD "").toLower
  if typ = "annular" ∨ typ = "ram" then
    match r.close_time_s with
    | none => [.missing_close_time r.name typ]
    | some t_close =>
      let limit := if typ = "annular" then annularLimit r spec else ramLimit r spec
      if limit < t_close then [.close_time_exceeded r.name typ t_close limit] else []
  else if typ = "valve" then
    let env := (r.environment.getD "subsea").toLower
    let service := (r.service.getD "").toLower
    if env = "subsea" ∧
        (service = "kill" ∨ service = "choke" ∨ service = "kiv" ∨ service = "civ") then
      let limit := spec.max_subsea_kill_choke_valve_time_s
      let check := fun (metric : String) (v : Option ℚ) =>
        match v with
        | none => ([] : List FunctionFail)
        | some t_op =>
          if limit < t_op then [.valve_time_exceeded r.name service metric t_op limit] else []
      check "close_time_s" r.close_time_s ++ check "open_time_s" r.open_time_s
    else []
  else []

/-- `_evaluate_regulators`: setpoint coverage within a 25-psi band, the
lowest measured value at the lowest setpoint must not exceed
`regulator_min_allowed_psi`, the highest measured value at the highest
setpoint must reach `regulator_max_allowed_psi`. Returns (`ok`, fails). -/
def evaluateRegulators (regulator_records : List RegulatorRecord)
    (spec : FunctionTestSpec) : Bool × List FunctionFail :=
  if regulator_records.isEmpty then (true, [])
  else
    let setpoints := spec.regulator_setpoints_psi
    let tol : ℚ := 25
    let near := fun (target : ℚ) (r : RegulatorRecord) =>
      decide (|r.setpoint_psi.getD (-1000000000) - target| ≤ tol)
    let coverFails := setpoints.filterMap (fun target =>
      if regulator_records.any (near target) then none
      else some (FunctionFail.missing_regulator_setpoint target tol))
    let low_candidates := (regulator_records.filter (near (npMin setpoints))).map
      (fun r => r.measured_psi.getD 0)
    let high_candidates := (regulator_records.filter (near (npMax setpoints))).map
      (fun r => r.measured_psi.getD 0)
    let lowFails :=
      match low_candidates with
      | [] => ([] : List FunctionFail)
      | _ =>
        if spec.regulator_min_allowed_psi < npMin low_candidates then
          [FunctionFail.regulator_min_pressure_too_high (npMin low_candidates)
            spec.regulator_min_allowed_psi]
        else []
    let highFails :=
      match high_candidates with
      | [] => ([] : List FunctionFail)
      | _ =>
        if npMax high_candidates < spec.regulator_max_allowed_psi then
          [FunctionFail.regulator_max_pressure_too_low (npMax high_candidates)
            spec.regulator_max_allowed_psi]
        else []
    let fails := coverFails ++ lowFails ++ highFails
    (fails.isEmpty, fails)

/-- `evaluate_closing_times`: collect the per-record failures, run the
regulator validation when `spec.validate_regulators` is set or
regulator records were passed, and combine into the four possible
verdict reasons. -/
def evaluateClosingTimes (records : List FunctionRecord) (spec : FunctionTestSpec)
    (regulator_records : Option (List RegulatorRecord)) : Verdict :=
  let fails := records.flatMap (fun r => recordFails r spec)
  let must_validate := spec.validate_regulators || regulator_records.isSome
  let regulator_eval :=
    if must_validate then evaluateRegulators (regulator_records.getD []) spec
    else (true, [])
  let ok := fails.isEmpty && regulator_eval.1
  if ok then ⟨true, "ok"⟩
  else if !fails.isEmpty && regulator_eval.1 then ⟨false, "closing_time_exceeds_limit"⟩
  else if fails.isEmpty && !regulator_eval.1 then ⟨false, "regulator_criteria_not_met"⟩
  else ⟨false, "closing_time_and_regulator_criteria_not_met"⟩

/-! ### Fault configuration transforms (`bop_twin/faults/*.py`)

The configurations are nested Python dicts. The embedding keeps the
keys the fault transforms read or write, each `Option` so that a
missing key is representable. In the source each `apply` performs its
updates **in place** on the argument dict and then returns that same
dict, so one `Config → ...` function describes both the returned
object and the post-call state of the caller's configuration. A
`KeyError` raised by a subscript on a missing key is modelled as
`Except.error`. -/

/-- The `cfg["fluid"]` sub-dict (only `bulk_modulus` is touched). -/
structure FluidCfg where
  bulk_modulus : Option ℚ := none
deriving Repr, DecidableEq

/-- A `cfg["valves"][name]` sub-dict (only `area_m2` is touched). -/
structure ValveCfg where
  area_m2 : Option ℚ := none
deriving Repr, DecidableEq

/-- A `cfg["accumulators"][name]` sub-dict (only `gas_precharge_psi`
is touched). -/
structure AccCfg where
  gas_precharge_psi : Option ℚ := none
deriving Repr, DecidableEq

/-- An `cfg["actuators"][name]` sub-dict (only `friction_coulomb_n`
is touched). -/
structure ActCfg where
  friction_coulomb_n : Option ℚ := none
deriving Repr, DecidableEq

/-- The configuration dict, restricted to the entries the fault
transforms use. Dict keys are unique, so the sub-dict tables are
association lists whose first match is the lookup result. -/
structure Config where
  fluid : Option FluidCfg := none
  valves : List (String × ValveCfg) := []
  accumulators : List (String × AccCfg) := []
  actuators : List (String × ActCfg) := []
  fault_runtime_CdA_leak_m2 : Option ℚ := none
deriving Repr, DecidableEq

/-- Association-list lookup (`dict.get(name)`). -/
def cfgLookup {α : Type} (table : List (String × α)) (key : String) : Option α :=
  (table.find? (fun e => e.1 = key)).map Prod.snd

/-- Replace the value at `key` (present exactly once, as in a dict). -/
def cfgUpdate {α : Type} (table : List (String × α)) (key : String) (v : α) :
    List (String × α) :=
  table.map (fun e => if e.1 = key then (e.1, v) else e)

/-- `BulkModulusDropFault.apply`: multiplies
`cfg["fluid"]["bulk_modulus"]` by `factor`. The subscripts raise
`KeyError` when `"fluid"` or `"bulk_modulus"` is missing. In place on
the argument; returns the same dict. -/
def bulkModulusDropApply (factor : ℚ) (cfg : Config) : Except String Config :=
  match cfg.fluid with
  | none => .error "KeyError: fluid"
  | some f =>
    match f.bulk_modulus with
    | none => .error "KeyError: bulk_modulus"
    | some b => .ok { cfg with fluid := some { bulk_modulus := some (b * factor) } }

/-- `CloggingFault.apply`: multiplies the named valve's `area_m2` by
`area_factor` when the valve exists and has a non-`None` area;
otherwise leaves the configuration untouched. Never raises. In place
on the argument; returns the same dict. -/
def cloggingApply (valve_name : String) (area_factor : ℚ) (cfg : Config) : Config :=
  match cfgLookup cfg.valves valve_name with
  | some v =>
    match v.area_m2 with
    | some a =>
      { cfg with valves := cfgUpdate cfg.valves valve_name { area_m2 := some (a * area_factor) } }
    | none => cfg
  | none => cfg

/-- `LeakageFault.apply`: `setdefault`s the `fault_runtime` sub-dict
and writes `CdA_leak_m2` into it. Never raises (the source would raise
`TypeError` only if `fault_runtime` held a non-dict, which the typed
embedding excludes). In place on the argument; returns the same dict. -/
def leakageApply (CdA_leak_m2 : ℚ) (cfg : Config) : Config :=
  { cfg with fault_runtime_CdA_leak_m2 := some CdA_leak_m2 }

/-- `PrechargeLossFault.apply`: multiplies `gas_precharge_psi` by
`factor` in every accumulator that has the key with a non-`None`
value; accumulators without it are untouched. Never raises. In place
on the argument; returns the same dict. -/
def prechargeLossApply (factor : ℚ) (cfg : Config) : Config :=
  { cfg with
    accumulators := cfg.accumulators.map (fun e =>
      match e.2.gas_precharge_psi with
      | some v => (e.1, { gas_precharge_psi := some (v * factor) })
      | none => e) }

/-- `SealFrictionIncreaseFault.apply`: adds `delta_coulomb_n` to the
named actuator's `friction_coulomb_n` (defaulting a missing value to
0, thereby creating the key) when the actuator exists; otherwise a
no-op. Never raises. In place on the argument; returns the same dict. -/
def sealFrictionIncreaseApply (actuator_name : String) (delta_coulomb_n : ℚ)
    (cfg : Config) : Config :=
  match cfgLookup cfg.actuators actuator_name with
  | some a =>
    { cfg with
      actuators := cfgUpdate cfg.actuators actuator_name
        { friction_coulomb_n := some (a.friction_coulomb_n.getD 0 + delta_coulomb_n) } }
  | none => cfg

/-! ### Concrete data used by witnesses and counterexamples -/

/-- A valid accumulator used to refute the unamended C3: precharge
10000 Pa below the default `min_pressure_pa = 1e5` clamp. -/
def accCE : AccumulatorParams :=
  { precharge_pa := 10000, gas_volume_m3 := 1, polytropic_n := 1, fluid_volume_m3 := 0,
    min_pressure_pa := 1e5, max_pressure_pa := 1e9 }


/-- A valid accumulator whose precharge lies inside the clamp range. -/
def accW : AccumulatorParams :=
  { precharge_pa := 200000, gas_volume_m3 := 1, polytropic_n := 1, fluid_volume_m3 := 0,
    min_pressure_pa := 1e5, max_pressure_pa := 1e9 }


/-- A valid valve for the C4 witness: defaults plus a 100 Pa minimum
threshold differential. -/
def valveW : OrificeValveParams := { min_delta_p_pa := 100 }

/-- A configuration whose valve and accumulator lack the fields the
fault transforms update. -/
def cfgW7 : Config :=
  { valves := [("v1", { area_m2 := none })],
    accumulators := [("a1", { gas_precharge_psi := none })], actuators := [] }

/-- A configuration with a valve whose area is present. -/
def cfgC8 : Config := { valves := [("v1", { area_m2 := some 2 })] }

/-- A second configuration with a valve whose area is present. -/
def cfgW8 : Config := { valves := [("v1", { area_m2 := some 6 })] }

/-- Time samples for the C9 scenario: 0 to 600 s every 10 s. -/
def tC9 : List ℚ := (List.range 61).map (fun i => 10 * i)

/-- Pressure samples for the C9 scenario: linear decline from `200e5`
to `198e5` Pa over the 600 s. -/
def pC9 : List ℚ := (List.range 61).map (fun i => 20000000 - 10000 * i / 3)

/-- Closing-time records exercising every no-failure path of
`evaluate_closing_times`: an unknown type, a surface kill valve, a
subsea valve with a non-kill/choke service, and a subsea kill valve
with both times missing. -/
def recsW : List FunctionRecord :=
  [{ name := some "PUMP1", type := some "pump" },
   { name := some "KV", type := some "valve", environment := some "surface",
     service := some "kill", close_time_s := some 50 },
   { name := some "PV", type := some "valve", service := some "production",
     close_time_s := some 999 },
   { name := some "KV2", type := some "valve", service := some "kill" }]

/-- Time samples for the C5 witness: 20 samples every 15 s, all inside
the 5-minute observation window. -/
def tW5 : List ℚ := (List.range 20).map (fun i => 15 * i)

/-- Pressures for the C5 witness: a clean 310 → 300 psi step, whose
robust window drop is exactly 10 psi. -/
def pW5 : List ℚ := (List.range 20).map (fun i => if i < 10 then 310 else 300)

/-- Pressures for the C5 witness, failing side: a 310.01 → 300 psi
step, whose robust window drop is 10.01 psi. -/
def pW5b : List ℚ := (List.range 20).map (fun i => if i < 10 then 31001 / 100 else 300)

/-- Time samples for the C6 witness: 31 samples every 30 s over the
15-minute soak window. -/
def tW6 : List ℚ := (List.range 31).map (fun i => 30 * i)

/-- Accumulator pressures for the C6 witness: all three 5-minute block
drops within the 6 psi limit (5.5, 0.5, 0.5 psi), the first one dubious
(above 90% of the limit), with a total decay fast enough that the
estimated pump interval stays below 4 h. -/
def pW6 : List ℚ := (List.range 31).map (fun i =>
  if i < 3 then 2900 else if i < 8 then 2897 else if i < 13 then 5789 / 2
  else if i < 18 then 14471 / 5 else if i < 23 then 2894 else if i < 28 then 14469 / 5
  else 5787 / 2)

/-! ### Helper lemmas for the valve model -/

lemma npSign_pos {x : ℝ} (h : 0 < x) : npSign x = 1 := by
  simp [npSign, h]

lemma npSign_neg {x : ℝ} (h : x < 0) : npSign x = -1 := by
  simp [npSign, not_lt.mpr h.le, h]

lemma yieldThr_nonneg (P : OrificeValveParams) : 0 ≤ yieldDeltaPThresholdPa P := by
  unfold yieldDeltaPThresholdPa
  split
  · exact le_rfl
  · rename_i h
    push_neg at h
    have hD : (0 : ℝ) < max P.hydraulic_diameter_m 1e-9 := lt_max_of_lt_right (by norm_num)
    have hL : (0 : ℝ) < max P.equivalent_length_m 1e-9 := lt_max_of_lt_right (by norm_num)
    positivity

lemma codeThr_nonneg (P : OrificeValveParams) :
    0 ≤ max P.min_delta_p_pa (yieldDeltaPThresholdPa P) :=
  le_trans (yieldThr_nonneg P) (le_max_right _ _)

/-- Under the data-model invariants the floored threshold of
`_yield_delta_p_threshold_pa` coincides with the literal formula
`4*L*tau0/D`. -/
lemma yieldThr_eq_formula (P : OrificeValveParams) (hD : (1e-9 : ℝ) ≤ P.hydraulic_diameter_m)
    (hL : (1e-9 : ℝ) ≤ P.equivalent_length_m) (hτ : 0 ≤ P.yield_stress_pa) :
    yieldDeltaPThresholdPa P =
      4 * P.equivalent_length_m * P.yield_stress_pa / P.hydraulic_diameter_m := by
  unfold yieldDeltaPThresholdPa
  rcases eq_or_lt_of_le hτ with h0 | hpos
  · rw [if_pos (le_of_eq h0.symm), ← h0, mul_zero, zero_div]
  · rw [if_neg (not_le.mpr hpos), max_eq_left hL, max_eq_left hD]

lemma abs_raw_le (P : OrificeValveParams) (d : ℝ) :
    |if P.allow_reverse_flow then d else max d 0| ≤ |d| := by
  split
  · exact le_rfl
  · rw [abs_of_nonneg (le_max_right d 0)]
    exact max_le (le_abs_self d) (abs_nonneg d)

lemma flow_zero_of_area (P : OrificeValveParams) (p_up p_dn rho opening : ℝ)
    (hA : P.area_m2 * npClip opening P.min_opening P.max_opening ≤ 0) :
    flow_m3s P p_up p_dn rho opening = 0 := by
  simp only [flow_m3s]
  rw [if_pos (Or.inr (Or.inl hA))]

lemma flow_zero_of_eq (P : OrificeValveParams) (p_dn rho opening : ℝ) :
    flow_m3s P p_dn p_dn rho opening = 0 := by
  simp only [flow_m3s, sub_self, max_self, ite_self, abs_zero]
  rw [if_pos (Or.inl le_rfl)]

lemma flow_zero_of_noallow (P : OrificeValveParams) (p_up p_dn rho opening : ℝ)
    (hallow : P.allow_reverse_flow = false) (hd : p_up - p_dn ≤ 0) :
    flow_m3s P p_up p_dn rho opening = 0 := by
  simp only [flow_m3s, hallow, Bool.false_eq_true, if_false, max_eq_right hd, abs_zero]
  rw [if_pos (Or.inl le_rfl)]

lemma flow_zero_of_le_thr (P : OrificeValveParams) (p_up p_dn rho opening : ℝ)
    (h : |p_up - p_dn| ≤ max P.min_delta_p_pa (yieldDeltaPThresholdPa P)) :
    flow_m3s P p_up p_dn rho opening = 0 := by
  simp only [flow_m3s]
  by_cases h1 : |if P.allow_reverse_flow then p_up - p_dn else max (p_up - p_dn) 0| ≤ 0 ∨
      P.area_m2 * npClip opening P.min_opening P.max_opening ≤ 0 ∨
      npSign (if P.allow_reverse_flow then p_up - p_dn else max (p_up - p_dn) 0) = 0
  · rw [if_pos h1]
  · rw [if_neg h1]
    have hle : |if P.allow_reverse_flow then p_up - p_dn else max (p_up - p_dn) 0| ≤
        max P.min_delta_p_pa (yieldDeltaPThresholdPa P) :=
      le_trans (abs_raw_le P (p_up - p_dn)) h
    rw [if_pos (le_of_eq (max_eq_right (by linarith)))]

/-! ### C1 and C2 -/

/-- C1: for a valid valve (density > 0, geometric and stress parameters
within the data-model invariants), a clamped opening of 0, equal
pressures, or a pressure differential whose magnitude does not exceed
`max(min_delta_p_pa, 4*L*tau0/D)` each make `flow_m3s` return exactly 0. -/
theorem flow_m3s_zero_below_threshold (P : OrificeValveParams) (p_up p_dn rho opening : ℝ)
    (hρ : 0 < rho) (hD : (1e-9 : ℝ) ≤ P.hydraulic_diameter_m)
    (hL : (1e-9 : ℝ) ≤ P.equivalent_length_m) (hτ : 0 ≤ P.yield_stress_pa)
    (hcase : npClip opening P.min_opening P.max_opening = 0 ∨ p_up = p_dn ∨
      |p_up - p_dn| ≤ max P.min_delta_p_pa
        (4 * P.equivalent_length_m * P.yield_stress_pa / P.hydraulic_diameter_m)) :
    flow_m3s P p_up p_dn rho opening = 0 := by
  rcases hcase with hop | heq | hthr
  · exact flow_zero_of_area P p_up p_dn rho opening (by rw [hop, mul_zero])
  · rw [heq]
    exact flow_zero_of_eq P p_dn rho opening
  · rw [← yieldThr_eq_formula P hD hL hτ] at hthr
    exact flow_zero_of_le_thr P p_up p_dn rho opening hthr

/-- C1 witness: equal pressures at the default valve parameters give
zero flow. -/
theorem flow_m3s_zero_below_threshold_witness :
    flow_m3s {} 200000 200000 1000 (1 / 2) = 0 :=
  flow_m3s_zero_below_threshold {} 200000 200000 1000 (1 / 2) (by norm_num)
    (by norm_num) (by norm_num) (by norm_num) (Or.inr (Or.inl rfl))

/-- C2: the node capacitance of `BOPHydraulicMVP` is strictly positive
for every parameter set, node volume, node pressure (including values
at or below zero) and structural compliance, so the derivative
divisions in `rhs` never divide by zero. -/
theorem node_capacitance_pos (hp : LumpedHydraulicParams)
    (node_volume_m3 p_node_pa structural_compliance_m3_per_pa : ℝ) :
    0 < node_capacitance_m3_per_pa hp node_volume_m3 p_node_pa
      structural_compliance_m3_per_pa := by
  have h : node_capacitance_m3_per_pa hp node_volume_m3 p_node_pa
      structural_compliance_m3_per_pa =
      max (max node_volume_m3 1e-9 / max (effective_bulk_modulus_pa hp p_node_pa) 1e3 +
        max structural_compliance_m3_per_pa 0) 1e-15 := rfl
  rw [h]
  exact lt_of_lt_of_le (by norm_num) (le_max_right _ _)

/-! ### C3: accumulator pressure -/

lemma ite_floor_eq_max (x ε : ℝ) : (if x ≤ ε then ε else x) = max x ε := by
  split
  · rename_i h
    exact (max_eq_right h).symm
  · rename_i h
    exact (max_eq_left (le_of_not_le h)).symm

lemma ite_lower_clamp (p m : ℝ) : (if p < m then m else p) = max p m := by
  split
  · rename_i h
    exact (max_eq_right h.le).symm
  · rename_i h
    exact (max_eq_left (not_lt.mp h)).symm

lemma ite_upper_clamp (p M : ℝ) : (if M < p then M else p) = min p M := by
  split
  · rename_i h
    exact (min_eq_right h.le).symm
  · rename_i h
    exact (min_eq_left (not_lt.mp h)).symm

/-- Closed form of the algebraic pressure update of `Accumulator.rhs`. -/
lemma accumulator_pressure_eq (P : AccumulatorParams) (Vf : ℝ) :
    accumulator_pressure P Vf =
      min (max (gas_pressure_from_Vg P
          (max (P.gas_volume_m3 + (P.fluid_volume_m3 - Vf)) 1e-12))
        P.min_pressure_pa) P.max_pressure_pa := by
  simp only [accumulator_pressure, ite_floor_eq_max, ite_lower_clamp, ite_upper_clamp]

/-- C3 (amended): for a valid accumulator (`P0, Vg0, n > 0`) the pressure
computed from the fluid volume in `Accumulator.rhs` is monotonically
non-increasing as `Vf` decreases; the value at `Vf = Vf0` is the
precharge `P0` exactly provided `Vg0` is at least the `1e-12` gas-volume
floor and `P0` lies inside the `[min_pressure, max_pressure]` clamp
range (outside that range the clamp replaces it). -/
theorem accumulator_pressure_monotone_and_precharge (P : AccumulatorParams)
    (hP0 : 0 < P.precharge_pa) (hVg0 : 0 < P.gas_volume_m3) (hn : 0 < P.polytropic_n) :
    (∀ Vf₁ Vf₂ : ℝ, Vf₁ ≤ Vf₂ →
      accumulator_pressure P Vf₁ ≤ accumulator_pressure P Vf₂) ∧
    ((1e-12 : ℝ) ≤ P.gas_volume_m3 → P.min_pressure_pa ≤ P.precharge_pa →
      P.precharge_pa ≤ P.max_pressure_pa →
      accumulator_pressure P P.fluid_volume_m3 = P.precharge_pa) := by
  constructor
  · intro Vf₁ Vf₂ h12
    rw [accumulator_pressure_eq, accumulator_pressure_eq]
    have hVg2pos : (0 : ℝ) < max (P.gas_volume_m3 + (P.fluid_volume_m3 - Vf₂)) 1e-12 :=
      lt_max_of_lt_right (by norm_num)
    have hVgle : max (P.gas_volume_m3 + (P.fluid_volume_m3 - Vf₂)) 1e-12 ≤
        max (P.gas_volume_m3 + (P.fluid_volume_m3 - Vf₁)) 1e-12 :=
      max_le_max (by linarith) le_rfl
    have hdiv : P.gas_volume_m3 / max (P.gas_volume_m3 + (P.fluid_volume_m3 - Vf₁)) 1e-12 ≤
        P.gas_volume_m3 / max (P.gas_volume_m3 + (P.fluid_volume_m3 - Vf₂)) 1e-12 :=
      div_le_div_of_nonneg_left hVg0.le hVg2pos hVgle
    have hpow := Real.rpow_le_rpow
      (div_nonneg hVg0.le (lt_of_lt_of_le hVg2pos hVgle).le) hdiv hn.le
    have hgas : gas_pressure_from_Vg P
        (max (P.gas_volume_m3 + (P.fluid_volume_m3 - Vf₁)) 1e-12) ≤
        gas_pressure_from_Vg P
        (max (P.gas_volume_m3 + (P.fluid_volume_m3 - Vf₂)) 1e-12) :=
      mul_le_mul_of_nonneg_left hpow hP0.le
    exact min_le_min (max_le_max hgas le_rfl) le_rfl
  · intro hfloor hmin hmax
    rw [accumulator_pressure_eq, sub_self, add_zero, max_eq_left hfloor]
    have hgas : gas_pressure_from_Vg P P.gas_volume_m3 = P.precharge_pa := by
      unfold gas_pressure_from_Vg
      rw [div_self hVg0.ne', Real.one_rpow, mul_one]
    rw [hgas, max_eq_left hmin, min_eq_left hmax]

/-- C3 counterexample: for the valid accumulator `accCE` (all
`__post_init__` invariants hold, `n > 0`), the pressure computed at
`Vf = Vf0` is the clamp `1e5`, not the precharge `P0 = 10^4`: the
claimed exact equality `P(Vf0) = P0` fails. -/
theorem accumulator_precharge_counterexample :
    0 < accCE.precharge_pa ∧ 0 < accCE.gas_volume_m3 ∧ 0 < accCE.polytropic_n ∧
    0 ≤ accCE.fluid_volume_m3 ∧
    accumulator_pressure accCE accCE.fluid_volume_m3 ≠ accCE.precharge_pa := by
  refine ⟨by norm_num [accCE], by norm_num [accCE], by norm_num [accCE],
    by norm_num [accCE], ?_⟩
  rw [accumulator_pressure_eq]
  have hgas : gas_pressure_from_Vg accCE
      (max (accCE.gas_volume_m3 + (accCE.fluid_volume_m3 - accCE.fluid_volume_m3)) 1e-12) =
      10000 := by
    unfold gas_pressure_from_Vg
    norm_num [accCE]
  rw [hgas]
  norm_num [accCE]

/-- C3 witness: at `accW` the monotone bound holds at `Vf = -1 ≤ 0` and
the computed pressure at `Vf0` equals the precharge exactly. -/
theorem accumulator_pressure_monotone_and_precharge_witness :
    accumulator_pressure accW (-1) ≤ accumulator_pressure accW 0 ∧
    accumulator_pressure accW accW.fluid_volume_m3 = accW.precharge_pa := by
  have h := accumulator_pressure_monotone_and_precharge accW
    (by norm_num [accW]) (by norm_num [accW]) (by norm_num [accW])
  refine ⟨h.1 (-1) 0 (by norm_num), h.2 (by norm_num [accW]) (by norm_num [accW])
    (by norm_num [accW])⟩

/-! ### C4: monotonicity of the flow magnitude -/

lemma npClip01_nonneg (x : ℝ) : 0 ≤ npClip x 0 1 :=
  le_min (le_max_right x 0) zero_le_one

/-- Value of `flow_m3s` on the forward main branch: positive
differential above threshold and positive effective area. -/
lemma flow_m3s_of_pos (P : OrificeValveParams) (p_up p_dn rho opening : ℝ)
    (hd : 0 < p_up - p_dn)
    (hA : 0 < P.area_m2 * npClip opening P.min_opening P.max_opening)
    (hthr : max P.min_delta_p_pa (yieldDeltaPThresholdPa P) < p_up - p_dn) :
    flow_m3s P p_up p_dn rho opening =
      (if 0 < P.attenuation_alpha ∧ 0 < P.yield_stress_pa then
        npClip P.transmission_gain 0 1 *
          Real.exp (-(P.attenuation_alpha * (P.yield_stress_pa /
            max ((p_up - p_dn) * max P.hydraulic_diameter_m 1e-9 /
              (4 * max P.equivalent_length_m 1e-9)) 1e-9)) /
            max P.inertia_dissipation_ratio 1e-9)
      else npClip P.transmission_gain 0 1) *
      (P.cd * (P.area_m2 * npClip opening P.min_opening P.max_opening) *
        Real.sqrt (2 * ((p_up - p_dn) -
          max P.min_delta_p_pa (yieldDeltaPThresholdPa P)) / rho)) := by
  simp only [flow_m3s]
  have hraw : (if P.allow_reverse_flow = true then p_up - p_dn else max (p_up - p_dn) 0) =
      p_up - p_dn := by
    split
    · rfl
    · exact max_eq_left hd.le
  rw [hraw, npSign_pos hd, abs_of_pos hd]
  rw [if_neg (by
    simp only [not_or]
    exact ⟨not_le.mpr hd, not_le.mpr hA, one_ne_zero⟩)]
  rw [max_eq_left (by linarith), if_neg (not_le.mpr (by linarith))]
  rw [if_neg (by norm_num : ¬(1 : ℝ) < 0), one_mul]

/-- Value of `flow_m3s` on the reverse main branch (reverse flow
allowed, negative differential whose magnitude is above threshold,
positive effective area). -/
lemma flow_m3s_of_neg (P : OrificeValveParams) (p_up p_dn rho opening : ℝ)
    (hallow : P.allow_reverse_flow = true) (hd : p_up - p_dn < 0)
    (hA : 0 < P.area_m2 * npClip opening P.min_opening P.max_opening)
    (hthr : max P.min_delta_p_pa (yieldDeltaPThresholdPa P) < -(p_up - p_dn)) :
    flow_m3s P p_up p_dn rho opening =
      -((if 0 < P.attenuation_alpha ∧ 0 < P.yield_stress_pa then
        npClip P.transmission_gain 0 1 * max P.reverse_flow_gain 0 *
          Real.exp (-(P.attenuation_alpha * (P.yield_stress_pa /
            max ((-(p_up - p_dn)) * max P.hydraulic_diameter_m 1e-9 /
              (4 * max P.equivalent_length_m 1e-9)) 1e-9)) /
            max P.inertia_dissipation_ratio 1e-9)
      else npClip P.transmission_gain 0 1 * max P.reverse_flow_gain 0) *
      (P.cd * (P.area_m2 * npClip opening P.min_opening P.max_opening) *
        Real.sqrt (2 * ((-(p_up - p_dn)) -
          max P.min_delta_p_pa (yieldDeltaPThresholdPa P)) / rho))) := by
  simp only [flow_m3s, hallow, if_true]
  rw [npSign_neg hd, abs_of_neg hd]
  rw [if_neg (by
    simp only [not_or]
    refine ⟨not_le.mpr (neg_pos.mpr hd), not_le.mpr hA, ?_⟩
    norm_num)]
  rw [max_eq_left (by linarith), if_neg (not_le.mpr (by linarith))]
  rw [if_pos (by norm_num : (-1 : ℝ) < 0)]
  ring

/-- The in-branch flow magnitude `gain * q` is monotone in the
differential magnitude: both the effective-differential square root and
the Bingham-like exponential attenuation grow with it. -/
lemma gainq_mono (P : OrificeValveParams) (rho g0 A : ℝ) (hρ : 0 < rho) (hcd : 0 ≤ P.cd)
    (hg0 : 0 ≤ g0) (hA : 0 ≤ A) {x y : ℝ} (hxy : x ≤ y) :
    (if 0 < P.attenuation_alpha ∧ 0 < P.yield_stress_pa then
      g0 * Real.exp (-(P.attenuation_alpha * (P.yield_stress_pa /
        max (x * max P.hydraulic_diameter_m 1e-9 /
          (4 * max P.equivalent_length_m 1e-9)) 1e-9)) /
        max P.inertia_dissipation_ratio 1e-9)
    else g0) *
    (P.cd * A * Real.sqrt (2 * (x - max P.min_delta_p_pa (yieldDeltaPThresholdPa P)) / rho)) ≤
    (if 0 < P.attenuation_alpha ∧ 0 < P.yield_stress_pa then
      g0 * Real.exp (-(P.attenuation_alpha * (P.yield_stress_pa /
        max (y * max P.hydraulic_diameter_m 1e-9 /
          (4 * max P.equivalent_length_m 1e-9)) 1e-9)) /
        max P.inertia_dissipation_ratio 1e-9)
    else g0) *
    (P.cd * A * Real.sqrt (2 * (y - max P.min_delta_p_pa (yieldDeltaPThresholdPa P)) / rho)) := by
  have hq : P.cd * A * Real.sqrt (2 * (x - max P.min_delta_p_pa (yieldDeltaPThresholdPa P)) / rho) ≤
      P.cd * A * Real.sqrt (2 * (y - max P.min_delta_p_pa (yieldDeltaPThresholdPa P)) / rho) := by
    refine mul_le_mul_of_nonneg_left (Real.sqrt_le_sqrt ?_) (mul_nonneg hcd hA)
    exact div_le_div_of_nonneg_right (by linarith) hρ.le
  have hqx : 0 ≤ P.cd * A *
      Real.sqrt (2 * (x - max P.min_delta_p_pa (yieldDeltaPThresholdPa P)) / rho) :=
    mul_nonneg (mul_nonneg hcd hA) (Real.sqrt_nonneg _)
  split
  · rename_i hatt
    have hdh : (0 : ℝ) < max P.hydraulic_diameter_m 1e-9 := lt_max_of_lt_right (by norm_num)
    have hlh : (0 : ℝ) < 4 * max P.equivalent_length_m 1e-9 :=
      mul_pos (by norm_num) (lt_max_of_lt_right (by norm_num))
    have hlam : (0 : ℝ) < max P.inertia_dissipation_ratio 1e-9 := lt_max_of_lt_right (by norm_num)
    have hτw : x * max P.hydraulic_diameter_m 1e-9 / (4 * max P.equivalent_length_m 1e-9) ≤
        y * max P.hydraulic_diameter_m 1e-9 / (4 * max P.equivalent_length_m 1e-9) :=
      div_le_div_of_nonneg_right (mul_le_mul_of_nonneg_right hxy hdh.le) hlh.le
    have hmaxpos : (0 : ℝ) < max (x * max P.hydraulic_diameter_m 1e-9 /
        (4 * max P.equivalent_length_m 1e-9)) 1e-9 := lt_max_of_lt_right (by norm_num)
    have hb : P.yield_stress_pa / max (y * max P.hydraulic_diameter_m 1e-9 /
        (4 * max P.equivalent_length_m 1e-9)) 1e-9 ≤
        P.yield_stress_pa / max (x * max P.hydraulic_diameter_m 1e-9 /
        (4 * max P.equivalent_length_m 1e-9)) 1e-9 :=
      div_le_div_of_nonneg_left hatt.2.le hmaxpos (max_le_max hτw le_rfl)
    have harg : -(P.attenuation_alpha * (P.yield_stress_pa /
        max (x * max P.hydraulic_diameter_m 1e-9 /
          (4 * max P.equivalent_length_m 1e-9)) 1e-9)) /
        max P.inertia_dissipation_ratio 1e-9 ≤
        -(P.attenuation_alpha * (P.yield_stress_pa /
        max (y * max P.hydraulic_diameter_m 1e-9 /
          (4 * max P.equivalent_length_m 1e-9)) 1e-9)) /
        max P.inertia_dissipation_ratio 1e-9 :=
      div_le_div_of_nonneg_right (neg_le_neg (mul_le_mul_of_nonneg_left hb hatt.1.le)) hlam.le
    have hgain : g0 * Real.exp (-(P.attenuation_alpha * (P.yield_stress_pa /
        max (x * max P.hydraulic_diameter_m 1e-9 /
          (4 * max P.equivalent_length_m 1e-9)) 1e-9)) /
        max P.inertia_dissipation_ratio 1e-9) ≤
        g0 * Real.exp (-(P.attenuation_alpha * (P.yield_stress_pa /
        max (y * max P.hydraulic_diameter_m 1e-9 /
          (4 * max P.equivalent_length_m 1e-9)) 1e-9)) /
        max P.inertia_dissipation_ratio 1e-9) :=
      mul_le_mul_of_nonneg_left (Real.exp_le_exp.mpr harg) hg0
    exact mul_le_mul hgain hq hqx
      (mul_nonneg hg0 (Real.exp_pos _).le)
  · exact mul_le_mul_of_nonneg_left hq hg0

lemma ite_gain_nonneg (c : Prop) [Decidable c] (g0 e : ℝ) (hg0 : 0 ≤ g0) :
    0 ≤ if c then g0 * Real.exp e else g0 := by
  split
  · exact mul_nonneg hg0 (Real.exp_pos e).le
  · exact hg0

/-- C4: for fixed valid valve parameters and positive density, the flow
magnitude of `flow_m3s` is monotonically non-decreasing in the commanded
opening, and — above the yield/minimum threshold, within a fixed flow
direction — monotonically non-decreasing in the pressure-differential
magnitude, the exponential attenuation factor (driven by the
unthresholded differential) growing with it as well. -/
theorem flow_m3s_abs_monotone (P : OrificeValveParams) (p_dn rho : ℝ)
    (hρ : 0 < rho) (hcd : 0 ≤ P.cd) (harea : 0 ≤ P.area_m2) :
    (∀ p_up o₁ o₂, o₁ ≤ o₂ →
      |flow_m3s P p_up p_dn rho o₁| ≤ |flow_m3s P p_up p_dn rho o₂|) ∧
    (∀ opening p₁ p₂,
      max P.min_delta_p_pa (yieldDeltaPThresholdPa P) < |p₁ - p_dn| →
      |p₁ - p_dn| ≤ |p₂ - p_dn| → 0 ≤ (p₁ - p_dn) * (p₂ - p_dn) →
      |flow_m3s P p₁ p_dn rho opening| ≤ |flow_m3s P p₂ p_dn rho opening|) := by
  constructor
  · intro p_up o₁ o₂ ho
    have hop : npClip o₁ P.min_opening P.max_opening ≤ npClip o₂ P.min_opening P.max_opening := by
      unfold npClip
      exact min_le_min (max_le_max ho le_rfl) le_rfl
    have hA12 : P.area_m2 * npClip o₁ P.min_opening P.max_opening ≤
        P.area_m2 * npClip o₂ P.min_opening P.max_opening :=
      mul_le_mul_of_nonneg_left hop harea
    rcases lt_trichotomy (p_up - p_dn) 0 with hdneg | hdeq | hdpos
    · cases hallow : P.allow_reverse_flow with
      | false =>
        rw [flow_zero_of_noallow P p_up p_dn rho o₁ hallow hdneg.le,
          flow_zero_of_noallow P p_up p_dn rho o₂ hallow hdneg.le]
      | true =>
        by_cases hA2 : P.area_m2 * npClip o₂ P.min_opening P.max_opening ≤ 0
        · rw [flow_zero_of_area P p_up p_dn rho o₁ (le_trans hA12 hA2),
            flow_zero_of_area P p_up p_dn rho o₂ hA2]
        · push_neg at hA2
          by_cases hA1 : P.area_m2 * npClip o₁ P.min_opening P.max_opening ≤ 0
          · rw [flow_zero_of_area P p_up p_dn rho o₁ hA1, abs_zero]
            exact abs_nonneg _
          · push_neg at hA1
            by_cases hthr : -(p_up - p_dn) ≤ max P.min_delta_p_pa (yieldDeltaPThresholdPa P)
            · rw [flow_zero_of_le_thr P p_up p_dn rho o₁ (by rwa [abs_of_neg hdneg]),
                flow_zero_of_le_thr P p_up p_dn rho o₂ (by rwa [abs_of_neg hdneg])]
            · push_neg at hthr
              rw [flow_m3s_of_neg P p_up p_dn rho o₁ hallow hdneg hA1 hthr,
                flow_m3s_of_neg P p_up p_dn rho o₂ hallow hdneg hA2 hthr]
              rw [abs_neg, abs_neg]
              rw [abs_of_nonneg (mul_nonneg (ite_gain_nonneg _ _ _
                  (mul_nonneg (npClip01_nonneg _) (le_max_right _ _)))
                  (mul_nonneg (mul_nonneg hcd hA1.le) (Real.sqrt_nonneg _))),
                abs_of_nonneg (mul_nonneg (ite_gain_nonneg _ _ _
                  (mul_nonneg (npClip01_nonneg _) (le_max_right _ _)))
                  (mul_nonneg (mul_nonneg hcd hA2.le) (Real.sqrt_nonneg _)))]
              exact mul_le_mul_of_nonneg_left
                (mul_le_mul_of_nonneg_right (mul_le_mul_of_nonneg_left hA12 hcd)
                  (Real.sqrt_nonneg _))
                (ite_gain_nonneg _ _ _ (mul_nonneg (npClip01_nonneg _) (le_max_right _ _)))
    · rw [sub_eq_zero] at hdeq
      rw [hdeq, flow_zero_of_eq, flow_zero_of_eq]
    · by_cases hA2 : P.area_m2 * npClip o₂ P.min_opening P.max_opening ≤ 0
      · rw [flow_zero_of_area P p_up p_dn rho o₁ (le_trans hA12 hA2),
          flow_zero_of_area P p_up p_dn rho o₂ hA2]
      · push_neg at hA2
        by_cases hA1 : P.area_m2 * npClip o₁ P.min_opening P.max_opening ≤ 0
        · rw [flow_zero_of_area P p_up p_dn rho o₁ hA1, abs_zero]
          exact abs_nonneg _
        · push_neg at hA1
          by_cases hthr : p_up - p_dn ≤ max P.min_delta_p_pa (yieldDeltaPThresholdPa P)
          · rw [flow_zero_of_le_thr P p_up p_dn rho o₁ (by rwa [abs_of_pos hdpos]),
              flow_zero_of_le_thr P p_up p_dn rho o₂ (by rwa [abs_of_pos hdpos])]
          · push_neg at hthr
            rw [flow_m3s_of_pos P p_up p_dn rho o₁ hdpos hA1 hthr,
              flow_m3s_of_pos P p_up p_dn rho o₂ hdpos hA2 hthr]
            rw [abs_of_nonneg (mul_nonneg (ite_gain_nonneg _ _ _ (npClip01_nonneg _))
                (mul_nonneg (mul_nonneg hcd hA1.le) (Real.sqrt_nonneg _))),
              abs_of_nonneg (mul_nonneg (ite_gain_nonneg _ _ _ (npClip01_nonneg _))
                (mul_nonneg (mul_nonneg hcd hA2.le) (Real.sqrt_nonneg _)))]
            exact mul_le_mul_of_nonneg_left
              (mul_le_mul_of_nonneg_right (mul_le_mul_of_nonneg_left hA12 hcd)
                (Real.sqrt_nonneg _))
              (ite_gain_nonneg _ _ _ (npClip01_nonneg _))
  · intro opening p₁ p₂ h1 h2 h3
    have hthr0 : 0 ≤ max P.min_delta_p_pa (yieldDeltaPThresholdPa P) := codeThr_nonneg P
    have hd1ne : p₁ - p_dn ≠ 0 := by
      intro h
      rw [h, abs_zero] at h1
      linarith
    rcases hd1ne.lt_or_lt with hd1 | hd1
    · have hd2 : p₂ - p_dn < 0 := by
        rcases lt_trichotomy (p₂ - p_dn) 0 with h' | h' | h'
        · exact h'
        · rw [h', abs_zero] at h2
          have : |p₁ - p_dn| > 0 := abs_pos.mpr hd1ne
          linarith
        · exact absurd h3 (not_le.mpr (mul_neg_of_neg_of_pos hd1 h'))
      rw [abs_of_neg hd1] at h1 h2
      rw [abs_of_neg hd2] at h2
      cases hallow : P.allow_reverse_flow with
      | false =>
        rw [flow_zero_of_noallow P p₁ p_dn rho opening hallow hd1.le,
          flow_zero_of_noallow P p₂ p_dn rho opening hallow hd2.le]
      | true =>
        by_cases hA : P.area_m2 * npClip opening P.min_opening P.max_opening ≤ 0
        · rw [flow_zero_of_area P p₁ p_dn rho opening hA,
            flow_zero_of_area P p₂ p_dn rho opening hA]
        · push_neg at hA
          rw [flow_m3s_of_neg P p₁ p_dn rho opening hallow hd1 hA h1,
            flow_m3s_of_neg P p₂ p_dn rho opening hallow hd2 hA (lt_of_lt_of_le h1 h2)]
          rw [abs_neg, abs_neg]
          rw [abs_of_nonneg (mul_nonneg (ite_gain_nonneg _ _ _
              (mul_nonneg (npClip01_nonneg _) (le_max_right _ _)))
            (mul_nonneg (mul_nonneg hcd hA.le) (Real.sqrt_nonneg _))),
            abs_of_nonneg (mul_nonneg (ite_gain_nonneg _ _ _
              (mul_nonneg (npClip01_nonneg _) (le_max_right _ _)))
            (mul_nonneg (mul_nonneg hcd hA.le) (Real.sqrt_nonneg _)))]
          exact gainq_mono P rho (npClip P.transmission_gain 0 1 * max P.reverse_flow_gain 0)
            (P.area_m2 * npClip opening P.min_opening P.max_opening) hρ hcd
            (mul_nonneg (npClip01_nonneg _) (le_max_right _ _)) hA.le h2
    · have hd2 : 0 < p₂ - p_dn := by
        rcases lt_trichotomy (p₂ - p_dn) 0 with h' | h' | h'
        · exact absurd h3 (not_le.mpr (mul_neg_of_pos_of_neg hd1 h'))
        · rw [h', abs_zero] at h2
          have : |p₁ - p_dn| > 0 := abs_pos.mpr hd1ne
          linarith
        · exact h'
      rw [abs_of_pos hd1] at h1 h2
      rw [abs_of_pos hd2] at h2
      by_cases hA : P.area_m2 * npClip opening P.min_opening P.max_opening ≤ 0
      · rw [flow_zero_of_area P p₁ p_dn rho opening hA,
          flow_zero_of_area P p₂ p_dn rho opening hA]
      · push_neg at hA
        rw [flow_m3s_of_pos P p₁ p_dn rho opening hd1 hA h1,
          flow_m3s_of_pos P p₂ p_dn rho opening hd2 hA (lt_of_lt_of_le h1 h2)]
        rw [abs_of_nonneg (mul_nonneg (ite_gain_nonneg _ _ _ (npClip01_nonneg _))
            (mul_nonneg (mul_nonneg hcd hA.le) (Real.sqrt_nonneg _))),
          abs_of_nonneg (mul_nonneg (ite_gain_nonneg _ _ _ (npClip01_nonneg _))
            (mul_nonneg (mul_nonneg hcd hA.le) (Real.sqrt_nonneg _)))]
        exact gainq_mono P rho (npClip P.transmission_gain 0 1)
          (P.area_m2 * npClip opening P.min_opening P.max_opening) hρ hcd
          (npClip01_nonneg _) hA.le h2

/-- C4 witness: at the concrete valve `valveW`, density 1000, the flow
magnitude grows from opening 3/10 to 7/10, and from a 1000 Pa to a
2000 Pa differential (both above the 100 Pa threshold). -/
theorem flow_m3s_abs_monotone_witness :
    |flow_m3s valveW 1000 0 1000 (3 / 10)| ≤ |flow_m3s valveW 1000 0 1000 (7 / 10)| ∧
    |flow_m3s valveW 1000 0 1000 (1 / 2)| ≤ |flow_m3s valveW 2000 0 1000 (1 / 2)| := by
  have hyt : yieldDeltaPThresholdPa valveW = 0 := by
    unfold yieldDeltaPThresholdPa
    rw [if_pos (by norm_num [valveW])]
  have hthr : max valveW.min_delta_p_pa (yieldDeltaPThresholdPa valveW) = 100 := by
    rw [hyt]
    norm_num [valveW]
  have h := flow_m3s_abs_monotone valveW 0 1000 (by norm_num)
    (by norm_num [valveW]) (by norm_num [valveW])
  refine ⟨h.1 1000 (3 / 10) (7 / 10) (by norm_num), h.2 (1 / 2) 1000 2000 ?_ ?_ ?_⟩
  · rw [hthr, sub_zero, abs_of_nonneg (by norm_num : (0:ℝ) ≤ 1000)]
    norm_num
  · rw [sub_zero, sub_zero, abs_of_nonneg (by norm_num : (0:ℝ) ≤ 1000),
      abs_of_nonneg (by norm_num : (0:ℝ) ≤ 2000)]
    norm_num
  · norm_num

/-! ### C7 and C8: fault transforms -/

lemma cfgLookup_update {α : Type} (table : List (String × α)) (key : String) (v w : α)
    (h : cfgLookup table key = some v) :
    cfgLookup (cfgUpdate table key w) key = some w := by
  induction table with
  | nil => simp [cfgLookup] at h
  | cons e rest ih =>
    by_cases hk : e.1 = key
    · have hupd : cfgUpdate (e :: rest) key w = (e.1, w) :: cfgUpdate rest key w := by
        simp [cfgUpdate, if_pos hk]
      rw [hupd]
      unfold cfgLookup
      rw [List.find?_cons_of_pos _ (by simp [hk])]
      rfl
    · have hupd : cfgUpdate (e :: rest) key w = e :: cfgUpdate rest key w := by
        simp [cfgUpdate, if_neg hk]
      rw [hupd]
      unfold cfgLookup at h ⊢
      rw [List.find?_cons_of_neg _ (by simp [hk])] at h ⊢
      exact ih h

/-- C7 counterexample: `BulkModulusDropFault.apply` on a configuration
missing the `fluid` entry raises `KeyError` instead of being a no-op,
refuting "unknown or missing targets are no-ops (must not raise)" for
every fault variant. -/
theorem bulk_modulus_drop_missing_raises :
    bulkModulusDropApply (8 / 10) {} = Except.error "KeyError: fluid" := rfl

/-- C7 (amended): the fault transforms that look up a named target are
no-ops on unknown or missing targets — clogging with an unknown valve or
a `None` area, precharge loss when no accumulator carries the precharge
key, seal friction with an unknown actuator — and these never raise;
`BulkModulusDropFault.apply`, however, raises `KeyError` when
`fluid.bulk_modulus` is missing (and `SealFrictionIncreaseFault` on a
known actuator missing the friction key creates it rather than leaving
the configuration unchanged). -/
theorem fault_apply_missing_target_noop (cfg : Config) (name : String) (factor delta : ℚ) :
    (cfgLookup cfg.valves name = none → cloggingApply name factor cfg = cfg) ∧
    (∀ v, cfgLookup cfg.valves name = some v → v.area_m2 = none →
      cloggingApply name factor cfg = cfg) ∧
    ((∀ e ∈ cfg.accumulators, e.2.gas_precharge_psi = none) →
      prechargeLossApply factor cfg = cfg) ∧
    (cfgLookup cfg.actuators name = none → sealFrictionIncreaseApply name delta cfg = cfg) := by
  refine ⟨?_, ?_, ?_, ?_⟩
  · intro h
    simp [cloggingApply, h]
  · intro v hv ha
    simp [cloggingApply, hv, ha]
  · intro h
    unfold prechargeLossApply
    have hmap : (cfg.accumulators.map fun e =>
        match e.2.gas_precharge_psi with
        | some v => (e.1, ({ gas_precharge_psi := some (v * factor) } : AccCfg))
        | none => e) = cfg.accumulators := by
      have hcongr : ∀ e ∈ cfg.accumulators,
          (match e.2.gas_precharge_psi with
          | some v => (e.1, ({ gas_precharge_psi := some (v * factor) } : AccCfg))
          | none => e) = id e := by
        intro e he
        simp only [h e he, id]
      rw [List.map_congr_left hcongr, List.map_id]
    rw [hmap]
  · intro h
    simp [sealFrictionIncreaseApply, h]

/-- C7 witness: on `cfgW7` (valve present without area, accumulator
without precharge key) the clogging, precharge-loss and seal-friction
faults all return the configuration unchanged. -/
theorem fault_apply_missing_target_noop_witness :
    cloggingApply "missing" (1 / 2) cfgW7 = cfgW7 ∧
    cloggingApply "v1" (1 / 2) cfgW7 = cfgW7 ∧
    prechargeLossApply (4 / 5) cfgW7 = cfgW7 ∧
    sealFrictionIncreaseApply "missing" 5 cfgW7 = cfgW7 := by
  have h := fault_apply_missing_target_noop cfgW7 "missing" (1 / 2) 5
  have h2 := fault_apply_missing_target_noop cfgW7 "v1" (1 / 2) 5
  exact ⟨h.1 (by decide), h2.2.1 { area_m2 := none } (by decide) rfl,
    h.2.2.1 (by decide), h.2.2.2 (by decide)⟩

/-- C8 counterexample: `CloggingFault.apply` on a configuration whose
valve has an area, and `LeakageFault.apply` on any configuration,
change the configuration dict they were handed (the source updates it
in place and returns the very same object), refuting "never mutates the
configuration object passed in". -/
theorem fault_apply_mutates_counterexample :
    cloggingApply "v1" (1 / 2) cfgC8 ≠ cfgC8 ∧ leakageApply 1 {} ≠ ({} : Config) := by
  exact ⟨by with_unfolding_all decide, by with_unfolding_all decide⟩

/-- C8 (amended): each fault `apply` performs its update in place on
the argument dict and returns that same dict; whenever the update is
not a no-op — a clogging target valve with a present non-zero area and
factor ≠ 1, or a leakage fault writing a value `fault_runtime` did not
already hold — the caller's original configuration is changed by the
call rather than preserved. -/
theorem fault_apply_in_place_mutation (cfg : Config) (name : String) (factor CdA : ℚ) :
    (∀ v a, cfgLookup cfg.valves name = some v → v.area_m2 = some a → a ≠ 0 → factor ≠ 1 →
      cloggingApply name factor cfg ≠ cfg) ∧
    (cfg.fault_runtime_CdA_leak_m2 ≠ some CdA → leakageApply CdA cfg ≠ cfg) := by
  constructor
  · intro v a hv ha hane hfne heq
    have h1 : cfgLookup (cloggingApply name factor cfg).valves name =
        some { area_m2 := some (a * factor) } := by
      simp only [cloggingApply, hv, ha]
      exact cfgLookup_update cfg.valves name v _ hv
    rw [heq, hv] at h1
    have hveq : v = { area_m2 := some (a * factor) } := Option.some_injective _ h1
    have h3 : some a = some (a * factor) := by rw [← ha, hveq]
    have h4 : a * factor = a := (Option.some_injective _ h3).symm
    exact hfne (mul_left_cancel₀ hane (by rw [h4, mul_one]))
  · intro hne heq
    apply hne
    have h : (leakageApply CdA cfg).fault_runtime_CdA_leak_m2 = some CdA := rfl
    rw [heq] at h
    exact h

/-- C8 witness: concrete in-place mutations — clogging on `cfgW8`
(valve area 6, factor 1/3) and leakage on the empty configuration —
leave the caller's configuration different from what was passed in. -/
theorem fault_apply_in_place_mutation_witness :
    cloggingApply "v1" (1 / 3) cfgW8 ≠ cfgW8 ∧ leakageApply 2 {} ≠ ({} : Config) := by
  have h := fault_apply_in_place_mutation cfgW8 "v1" (1 / 3) 2
  have h2 := fault_apply_in_place_mutation {} "v1" (1 / 3) 2
  exact ⟨h.1 { area_m2 := some 6 } 6 (by with_unfolding_all decide) rfl (by norm_num)
    (by norm_num), h2.2 (by with_unfolding_all decide)⟩

/-! ### C10: function-test acceptance on irrelevant records -/

lemma flatMap_nil_of {α β : Type} (l : List α) (f : α → List β) (h : ∀ a ∈ l, f a = []) :
    l.flatMap f = [] := by
  induction l with
  | nil => rfl
  | cons a rest ih =>
    rw [List.flatMap_cons, h a (List.mem_cons_self a rest), List.nil_append]
    exact ih (fun x hx => h x (List.mem_cons_of_mem a hx))

/-- C10: records whose type is not annular/ram/valve, and valve records
that are not subsea, not kill/choke/kiv/civ service, or have both
operation times missing, contribute no failure entry, so a record list
containing only such records is accepted with reason "ok" when
regulator validation is not triggered. -/
theorem evaluateClosingTimes_irrelevant_records_ok (records : List FunctionRecord)
    (spec : FunctionTestSpec) (hval : spec.validate_regulators = false)
    (hrec : ∀ r ∈ records,
      ((r.type.getD "").toLower ≠ "annular" ∧ (r.type.getD "").toLower ≠ "ram") ∧
      ((r.type.getD "").toLower = "valve" →
        (r.environment.getD "subsea").toLower ≠ "subsea" ∨
        ((r.service.getD "").toLower ≠ "kill" ∧ (r.service.getD "").toLower ≠ "choke" ∧
          (r.service.getD "").toLower ≠ "kiv" ∧ (r.service.getD "").toLower ≠ "civ") ∨
        (r.close_time_s = none ∧ r.open_time_s = none))) :
    evaluateClosingTimes records spec none = ⟨true, "ok"⟩ := by
  have hfails : ∀ r ∈ records, recordFails r spec = [] := by
    intro r hr
    obtain ⟨⟨hann, hram⟩, hvalve⟩ := hrec r hr
    unfold recordFails
    rw [if_neg (by simp [hann, hram])]
    by_cases htyp : (r.type.getD "").toLower = "valve"
    · rw [if_pos htyp]
      rcases hvalve htyp with henv | hserv | ⟨hc, ho⟩
      · rw [if_neg (by simp [henv])]
      · rw [if_neg (by simp [hserv.1, hserv.2.1, hserv.2.2.1, hserv.2.2.2])]
      · simp [hc, ho]
    · rw [if_neg htyp]
  have hflat : records.flatMap (fun r => recordFails r spec) = [] :=
    flatMap_nil_of records _ hfails
  unfold evaluateClosingTimes
  rw [hflat, hval]
  rfl

/-- C10 witness: the four concrete records of `recsW` (unknown type,
surface kill valve, subsea production valve, subsea kill valve without
times) are accepted with reason "ok" under the default spec. -/
theorem evaluateClosingTimes_irrelevant_records_ok_witness :
    evaluateClosingTimes recsW {} none = ⟨true, "ok"⟩ :=
  evaluateClosingTimes_irrelevant_records_ok recsW {} rfl (by with_unfolding_all decide)

/-! ### C9: legacy percentage hold-drop scenario -/

/-- C9 counterexample: on the linear decline from `200e5` to `198e5` Pa
over 600 s (sampled every 10 s) with a 300 s window and a 1% threshold,
`acceptance_hold_drop` reports `delta_p_percent = 100/199 ≈ 0.503`, not
approximately 1.0 — the trailing window sees only half the decline. -/
theorem acceptance_hold_drop_counterexample :
    (acceptanceHoldDrop tC9 pC9 300 1 false .pa "high" none none).delta_p_percent =
      100 / 199 ∧
    ¬(9 / 10 ≤ (acceptanceHoldDrop tC9 pC9 300 1 false .pa "high" none none).delta_p_percent) := by
  exact ⟨by with_unfolding_all decide, by with_unfolding_all decide⟩

/-- C9 (amended): on the 600 s linear decline the 300 s window yields
`delta_p_percent = 100/199 ≈ 0.503` with `pass = true`; the pass flag
uses `≤`, since widening the window to 600 s makes the computed drop
exactly 1.0, which passes a 1.0 threshold and fails a 0.99 one. -/
theorem acceptance_hold_drop_windowed :
    acceptanceHoldDrop tC9 pC9 300 1 false .pa "high" none none =
      ⟨100 / 199, true⟩ ∧
    acceptanceHoldDrop tC9 pC9 600 1 false .pa "high" none none = ⟨1, true⟩ ∧
    acceptanceHoldDrop tC9 pC9 600 (99 / 100) false .pa "high" none none = ⟨1, false⟩ := by
  exact ⟨by with_unfolding_all decide, by with_unfolding_all decide,
    by with_unfolding_all decide⟩

/-! ### C5: pressure-test drop boundary -/

lemma le_foldl_min (r : List ℚ) : ∀ a m : ℚ, m ≤ a → (∀ x ∈ r, m ≤ x) → m ≤ r.foldl min a := by
  induction r with
  | nil =>
    intro a m ha _
    exact ha
  | cons b rest ih =>
    intro a m ha h
    exact ih _ _ (le_min ha (h b (List.mem_cons_self b rest)))
      (fun x hx => h x (List.mem_cons_of_mem b hx))

lemma foldl_max_le (r : List ℚ) : ∀ a m : ℚ, a ≤ m → (∀ x ∈ r, x ≤ m) → r.foldl max a ≤ m := by
  induction r with
  | nil =>
    intro a m ha _
    exact ha
  | cons b rest ih =>
    intro a m ha h
    exact ih _ _ (max_le ha (h b (List.mem_cons_self b rest)))
      (fun x hx => h x (List.mem_cons_of_mem b hx))

lemma le_npMin {l : List ℚ} {m : ℚ} (hne : l ≠ []) (h : ∀ x ∈ l, m ≤ x) : m ≤ npMin l := by
  cases l with
  | nil => exact absurd rfl hne
  | cons a r =>
    exact le_foldl_min r a m (h a (List.mem_cons_self a r))
      (fun x hx => h x (List.mem_cons_of_mem a hx))

lemma npMax_le {l : List ℚ} {m : ℚ} (hne : l ≠ []) (h : ∀ x ∈ l, x ≤ m) : npMax l ≤ m := by
  cases l with
  | nil => exact absurd rfl hne
  | cons a r =>
    exact foldl_max_le r a m (h a (List.mem_cons_self a r))
      (fun x hx => h x (List.mem_cons_of_mem a hx))

/-- C5: for a low-mode test whose smoothed in-window samples stay within
`[low_min_psi, low_max_psi]` and whose rise is within limit, a robust
drop equal to `max_drop_low_psi` exactly passes with reason "ok", while
any larger drop fails with reason `low_test_drop_exceeds_limit`. -/
theorem evaluatePressureTest_low_drop_boundary
    (time_s pressure : List ℚ) (spec : PressureTestSpec) (unit : PressureUnitKind)
    (w : ℤ) (designated : Option ℚ) (p : List ℚ) (idx : List ℕ) (pse : ℚ × ℚ)
    (hmode : spec.mode = "low") (hchk : spec.check_measured_bop_pressure = false)
    (hlen : time_s.length = pressure.length) (h20 : 20 ≤ time_s.length)
    (hsort : hasDecrease time_s = false)
    (hp : p = rollingMedian (toPsi pressure unit) w)
    (hidx : idx = windowIndices time_s (time_s.getLastD 0) (spec.observation_min * 60))
    (h10 : 10 ≤ idx.length)
    (hse : pse = robustStartEndMean time_s p idx)
    (hrange : ∀ i ∈ idx, spec.low_min_psi ≤ p.getD i 0 ∧ p.getD i 0 ≤ spec.low_max_psi)
    (hrise : pse.2 - pse.1 ≤ spec.low_max_rise_psi) :
    (pse.1 - pse.2 = spec.max_drop_low_psi →
      evaluatePressureTest time_s pressure spec designated none unit w false none none none =
        ⟨true, "ok"⟩) ∧
    (spec.max_drop_low_psi < pse.1 - pse.2 →
      evaluatePressureTest time_s pressure spec designated none unit w false none none none =
        ⟨false, "low_test_drop_exceeds_limit"⟩) := by
  have hobs_ne : idx.map (fun i => p.getD i 0) ≠ [] := by
    apply List.ne_nil_of_length_pos
    rw [List.length_map]
    omega
  have hmin : spec.low_min_psi ≤ npMin (idx.map (fun i => p.getD i 0)) := by
    apply le_npMin hobs_ne
    intro x hx
    obtain ⟨i, hi, rfl⟩ := List.mem_map.mp hx
    exact (hrange i hi).1
  have hmax : npMax (idx.map (fun i => p.getD i 0)) ≤ spec.low_max_psi := by
    apply npMax_le hobs_ne
    intro x hx
    obtain ⟨i, hi, rfl⟩ := List.mem_map.mp hx
    exact (hrange i hi).2
  have hcore : evaluatePressureTest time_s pressure spec designated none unit w
      false none none none =
      (if spec.max_drop_low_psi < pse.1 - pse.2 then
        ⟨false, "low_test_drop_exceeds_limit"⟩
      else if spec.low_max_rise_psi < pse.2 - pse.1 then
        ⟨false, "low_test_rise_exceeds_limit"⟩
      else ⟨true, "ok"⟩) := by
    simp only [evaluatePressureTest]
    rw [if_neg (not_lt.mpr h20), hsort]
    simp only [Bool.false_eq_true, if_false]
    rw [List.map_fst_zip time_s pressure (le_of_eq hlen),
      List.map_snd_zip time_s pressure (le_of_eq hlen.symm), ← hp, ← hidx,
      if_neg (not_lt.mpr h10), ← hse, hmode]
    rw [if_pos rfl, if_neg (not_or.mpr ⟨not_lt.mpr hmin, not_lt.mpr hmax⟩)]
  constructor
  · intro hdrop
    rw [hcore, if_neg (not_lt.mpr (le_of_eq hdrop)), if_neg (not_lt.mpr hrise)]
  · intro hdrop
    rw [hcore, if_pos hdrop]

/-- C5 witness: on the 20-sample step series, a robust drop of exactly
10 psi passes with "ok" and a drop of 10.01 psi fails with
`low_test_drop_exceeds_limit`, under the default low-mode spec. -/
theorem evaluatePressureTest_low_drop_boundary_witness :
    evaluatePressureTest tW5 pW5 { mode := "low" } none none .psi 11 false none none none =
      ⟨true, "ok"⟩ ∧
    evaluatePressureTest tW5 pW5b { mode := "low" } none none .psi 11 false none none none =
      ⟨false, "low_test_drop_exceeds_limit"⟩ := by
  constructor
  · exact (evaluatePressureTest_low_drop_boundary tW5 pW5 { mode := "low" } .psi 11 none
      (rollingMedian (toPsi pW5 .psi) 11)
      (windowIndices tW5 (tW5.getLastD 0) (({ mode := "low" } : PressureTestSpec).observation_min * 60))
      (robustStartEndMean tW5 (rollingMedian (toPsi pW5 .psi) 11)
        (windowIndices tW5 (tW5.getLastD 0) (({ mode := "low" } : PressureTestSpec).observation_min * 60)))
      rfl rfl (by with_unfolding_all decide) (by with_unfolding_all decide)
      (by with_unfolding_all decide) rfl rfl (by with_unfolding_all decide) rfl
      (by with_unfolding_all decide) (by with_unfolding_all decide)).1
      (by with_unfolding_all decide)
  · exact (evaluatePressureTest_low_drop_boundary tW5 pW5b { mode := "low" } .psi 11 none
      (rollingMedian (toPsi pW5b .psi) 11)
      (windowIndices tW5 (tW5.getLastD 0) (({ mode := "low" } : PressureTestSpec).observation_min * 60))
      (robustStartEndMean tW5 (rollingMedian (toPsi pW5b .psi) 11)
        (windowIndices tW5 (tW5.getLastD 0) (({ mode := "low" } : PressureTestSpec).observation_min * 60)))
      rfl rfl (by with_unfolding_all decide) (by with_unfolding_all decide)
      (by with_unfolding_all decide) rfl rfl (by with_unfolding_all decide) rfl
      (by with_unfolding_all decide) (by with_unfolding_all decide)).2
      (by with_unfolding_all decide)

/-! ### C6: soak-test extension rule -/

/-- C6: whenever every per-block drop passes but some block is dubious
(above `dubious_fraction_of_limit` of the allowed drop), a pump-stop
pressure is given, and the estimated pump interval is below
`min_required_pump_interval_h`, `evaluate_soak_test` fails with reason
`requires_extended_observation_until_pump_interval_above_4h`,
overriding the per-block pass. -/
theorem evaluateSoakTest_extension_rule
    (time_s acc_p : List ℚ) (pump_start pump_stop : ℚ) (spec : SoakTestSpec)
    (keep : List ℕ) (t15 p15 drops : List ℚ) (allow : ℚ)
    (hsort : hasDecrease time_s = false)
    (hlen : time_s.length = acc_p.length)
    (hdur : ¬(time_s.getLastD 0 - spec.duration_min * 60 < time_s.headD 0))
    (hkeep : keep = (List.range time_s.length).filter (fun i =>
      decide (time_s.getLastD 0 - spec.duration_min * 60 ≤ time_s.getD i 0) &&
      decide (time_s.getD i 0 ≤ time_s.getLastD 0)))
    (ht15 : t15 = keep.map (fun i => time_s.getD i 0))
    (hp15 : p15 = keep.map (fun i => acc_p.getD i 0))
    (hallow : allow = allowed_drop_per_step pump_start)
    (hdrops : (List.range (⌊spec.duration_min / spec.step_min⌋).toNat).mapM
      (fun k => soakBlockDrop t15 p15
        (time_s.getLastD 0 - spec.duration_min * 60 + k * (spec.step_min * 60))
        (time_s.getLastD 0 - spec.duration_min * 60 + k * (spec.step_min * 60) +
          spec.step_min * 60)) = some drops)
    (hall : ∀ d ∈ drops, d ≤ allow)
    (hdub : ∃ d ∈ drops, spec.dubious_fraction_of_limit * allow < d)
    (hext : spec.extend_if_dubious = true)
    (hdurpos : 0 < spec.duration_min)
    (hrate : 1 / 1000000000000 < (npMax p15 - npMin p15) / spec.duration_min)
    (hint : max (pump_stop - pump_start) 0 / ((npMax p15 - npMin p15) / spec.duration_min) <
      spec.min_required_pump_interval_h * 60) :
    evaluateSoakTest time_s acc_p pump_start spec (some pump_stop) =
      ⟨false, "requires_extended_observation_until_pump_interval_above_4h"⟩ := by
  subst hallow ht15 hp15 hkeep
  simp only [evaluateSoakTest]
  rw [hsort]
  simp only [Bool.false_eq_true, if_false]
  rw [List.map_fst_zip time_s acc_p (le_of_eq hlen),
    List.map_snd_zip time_s acc_p (le_of_eq hlen.symm)]
  rw [if_neg hdur, hdrops]
  simp only []
  rw [if_pos hdurpos, if_pos hrate]
  have hok : drops.all (fun d => decide (d ≤ allowed_drop_per_step pump_start)) = true :=
    List.all_eq_true.mpr (fun d hd => decide_eq_true (hall d hd))
  have hdub' : drops.any (fun d =>
      decide (spec.dubious_fraction_of_limit * allowed_drop_per_step pump_start < d)) = true := by
    obtain ⟨d, hd, hlt⟩ := hdub
    exact List.any_eq_true.mpr ⟨d, hd, decide_eq_true hlt⟩
  rw [hok, hext, hdub']
  rw [if_pos (show _ = true from by
    simp only [Bool.true_and]
    exact decide_eq_true hint)]

set_option maxRecDepth 10000 in
/-- C6 witness: the concrete 31-sample soak series `pW6` at pump start
2700 psi and pump stop 2800 psi passes every block (drops 5.5, 0.5,
0.5 psi against 6 psi) but is failed with the extension reason: block 0
is dubious and the estimated pump interval is 3000/13 ≈ 231 min < 4 h. -/
theorem evaluateSoakTest_extension_rule_witness :
    evaluateSoakTest tW6 pW6 2700 {} (some 2800) =
      ⟨false, "requires_extended_observation_until_pump_interval_above_4h"⟩ :=
  evaluateSoakTest_extension_rule tW6 pW6 2700 2800 {}
    ((List.range tW6.length).filter (fun i =>
      decide (tW6.getLastD 0 - ({} : SoakTestSpec).duration_min * 60 ≤ tW6.getD i 0) &&
      decide (tW6.getD i 0 ≤ tW6.getLastD 0)))
    (((List.range tW6.length).filter (fun i =>
      decide (tW6.getLastD 0 - ({} : SoakTestSpec).duration_min * 60 ≤ tW6.getD i 0) &&
      decide (tW6.getD i 0 ≤ tW6.getLastD 0))).map (fun i => tW6.getD i 0))
    (((List.range tW6.length).filter (fun i =>
      decide (tW6.getLastD 0 - ({} : SoakTestSpec).duration_min * 60 ≤ tW6.getD i 0) &&
      decide (tW6.getD i 0 ≤ tW6.getLastD 0))).map (fun i => pW6.getD i 0))
    [11 / 2, 1 / 2, 1 / 2] (allowed_drop_per_step 2700)
    (by with_unfolding_all decide) (by with_unfolding_all decide)
    (by with_unfolding_all decide) rfl rfl rfl rfl
    (by with_unfolding_all decide) (by with_unfolding_all decide)
    (by with_unfolding_all decide) rfl (by with_unfolding_all decide)
    (by with_unfolding_all decide) (by with_unfolding_all decide)

end BPet
